import Mathlib

/-!
Verification development for `fetch_data.py` (TMDB data fetcher).

The Python script is a linear fetch-transform-filter-serialize pipeline.
We shallowly embed it:

* JSON dictionaries returned by the API become Lean structures whose fields
  are `Option`-valued exactly where the script uses `dict.get` (tolerated
  absence) and whose direct `dict['key']` indexings become `Except`-failures
  on `none` (Python `KeyError`).
* The HTTP layer (`rate_limited_get` + `response.raise_for_status`) becomes
  oracles of type `Nat → Except PyErr _`: an `Except.error` models a non-2xx
  status or transport failure raised at that request.
* Real time in the rate limiter becomes rational-valued wall-clock time with
  an idealized `time.sleep` (sleeps exactly the requested duration).
* `datetime.strptime(s, '%Y-%m-%d')` + the `datetime` constructor validation
  become the executable `parseDate` below.
-/

/-- Uncaught Python exceptions relevant to the script: `requests` HTTP or
transport errors raised by `raise_for_status`, `KeyError` from direct dict
indexing, `ValueError` from `datetime.strptime`. -/
inductive PyErr where
  | httpError
  | keyError
  | valueError
deriving DecidableEq, Repr

/-- A raw discovery item (one element of a discovery page's `results` array).
All fields are optional: JSON objects may lack any key.  Movies carry
`title`/`release_date`; TV items carry `name`/`first_air_date`. -/
structure Item where
  id : Option Nat
  title : Option String
  name : Option String
  overview : Option String
  poster_path : Option String
  release_date : Option String
  first_air_date : Option String
  vote_average : Option ℚ
  vote_count : Option Nat
deriving DecidableEq, Repr

/-- Body of one discovery-page response: the `results` array and the
`total_pages` integer, each possibly absent. -/
structure PageResponse where
  results : Option (List Item)
  total_pages : Option Nat
deriving DecidableEq, Repr

/-- A genre entry of the detail payload; the script indexes `g['name']`
directly. -/
structure Genre where
  name : String
deriving DecidableEq, Repr

/-- A crew entry: `p.get('job')` (optional), `p['name']` (direct index). -/
structure CrewEntry where
  job : Option String
  name : String
deriving DecidableEq, Repr

/-- A cast entry: `actor['name']` (direct index). -/
structure CastEntry where
  name : String
deriving DecidableEq, Repr

/-- The `credits` sub-object: `crew` and `cast` accessed with `.get`. -/
structure Credits where
  crew : Option (List CrewEntry)
  cast : Option (List CastEntry)
deriving DecidableEq, Repr

/-- A watch-provider entry: `p['provider_name']` and `p['logo_path']` are
direct indexes. -/
structure Provider where
  provider_name : String
  logo_path : String
deriving DecidableEq, Repr

/-- The per-region provider object; `flatrate` accessed with `.get`. -/
structure Region where
  flatrate : Option (List Provider)
deriving DecidableEq, Repr

/-- The `watch/providers → results` object; the script reads only the fixed
region key `'US'` with `.get`. -/
structure RegionResults where
  us : Option Region
deriving DecidableEq, Repr

/-- The `watch/providers` sub-object. -/
structure WatchProviders where
  results : Option RegionResults
deriving DecidableEq, Repr

/-- A TV episode summary (`last_episode_to_air` / `next_episode_to_air`);
all fields are read with `.get`. -/
structure Episode where
  season_number : Option Nat
  episode_number : Option Nat
  air_date : Option String
  name : Option String
deriving DecidableEq, Repr

/-- Detail payload of `GET /{movie|tv}/{id}?append_to_response=credits,watch/providers`,
restricted to the keys the script reads. -/
structure Details where
  credits : Option Credits
  watchProviders : Option WatchProviders
  genres : Option (List Genre)
  status : Option String
  in_production : Option Bool
  last_episode_to_air : Option Episode
  next_episode_to_air : Option Episode
deriving DecidableEq, Repr

/-- An output streaming entry `{'name': ..., 'logo': ...}`. -/
structure StreamingEntry where
  name : String
  logo : String
deriving DecidableEq, Repr

/-- The extracted `last_episode`/`next_episode` block. -/
structure EpisodeInfo where
  season : Option Nat
  episode : Option Nat
  air_date : Option String
  name : Option String
deriving DecidableEq, Repr

/-- The `tv_status` block of a TV output record. -/
structure TvStatus where
  status : String
  in_production : Bool
  last_episode : Option EpisodeInfo
  next_episode : Option EpisodeInfo
deriving DecidableEq, Repr

/-- One element of the output `movies` list (the dict built at the end of the
movie loop; the constant `'type': 'movie'` entry is omitted). -/
structure MovieRecord where
  id : Nat
  title : String
  overview : String
  poster_path : Option String
  release_date : Option String
  year : Option Nat
  vote_average : ℚ
  vote_count : Nat
  director : String
  actors : String
  genres : String
  streaming : List StreamingEntry
deriving DecidableEq, Repr

/-- One element of the output `tv_shows` list (the constant `'type': 'tv'`
entry is omitted). -/
structure TvRecord where
  id : Nat
  title : String
  overview : String
  poster_path : Option String
  first_air_date : Option String
  year : Option Nat
  vote_average : ℚ
  vote_count : Nat
  actors : String
  genres : String
  tv_status : TvStatus
  streaming : List StreamingEntry
deriving DecidableEq, Repr

/-- The counts of `output_data['metadata']`.  The wall-clock timestamp
(`generated_at`, `end_date`) and the configuration echoes (`start_date`,
`min_votes`, ...), being environment constants independent of the fetched
data, are not modelled. -/
structure Metadata where
  total_movies : Nat
  total_tv : Nat
  total_items : Nat
deriving DecidableEq, Repr

/-- The serialized output document `output_data`. -/
structure OutputDoc where
  movies : List MovieRecord
  tv_shows : List TvRecord
  metadata : Metadata
deriving DecidableEq, Repr

/-- The remote API as oracles.  `moviePage p` / `tvPage p` model the
rate-limited GET of the discovery URL with `&page=p` appended;
`movieDetail i` / `tvDetail i` model the combined detail GET for item `i`.
An `Except.error` value is the exception `raise_for_status` (or the
transport layer) would raise for that request. -/
structure Api where
  moviePage : Nat → Except PyErr PageResponse
  movieDetail : Nat → Except PyErr Details
  tvPage : Nat → Except PyErr PageResponse
  tvDetail : Nat → Except PyErr Details

/-! ## Rate limiter (timing model)

`rate_limited_get` keeps a global `last_request_time`; before each request it
computes `elapsed = time.time() - last_request_time`, sleeps
`DELAY_BETWEEN_REQUESTS - elapsed` if `elapsed` is smaller, then sets
`last_request_time = time.time()`.  Time is modelled by `ℚ`; `sleep d` is
idealized as advancing the clock by exactly `d`, and the instants between
consecutive statements coincide. -/

/-- `REQUESTS_PER_10_SEC = 40`. -/
def REQUESTS_PER_10_SEC : ℚ := 40

/-- `DELAY_BETWEEN_REQUESTS = 10.0 / REQUESTS_PER_10_SEC`. -/
def DELAY_BETWEEN_REQUESTS : ℚ := 10 / REQUESTS_PER_10_SEC

/-- Grant time of one call to `rate_limited_get` issued at wall-clock time
`now` with global state `last` (= `last_request_time`): if less than the
delay has elapsed, the call sleeps the remainder and the request goes out at
`last + DELAY_BETWEEN_REQUESTS`; otherwise it goes out immediately.  The
returned value is also the new `last_request_time`. -/
def rateLimitGrant (last now : ℚ) : ℚ :=
  if now - last < DELAY_BETWEEN_REQUESTS then last + DELAY_BETWEEN_REQUESTS else now

/-- Grant times of a sequence of calls: `ts` are the wall-clock instants at
which successive calls enter `rate_limited_get`, `last` the current
`last_request_time`; each grant becomes the `last` of the next call. -/
def grantTimes (last : ℚ) : List ℚ → List ℚ
  | [] => []
  | t :: ts => rateLimitGrant last t :: grantTimes (rateLimitGrant last t) ts

/-! ## Paginated fetch loop (`fetch_all_pages`) -/

/-- The `while page <= min(total_pages, max_pages)` loop of
`fetch_all_pages`.  Returns the accumulated `all_results` (or the first
request error) together with the list of page numbers actually requested, in
request order.  A failing GET aborts the loop at that request (after it was
issued). -/
def fetchLoop (api : Nat → Except PyErr PageResponse) (maxPages page totalPages : Nat)
    (acc : List Item) : Except PyErr (List Item) × List Nat :=
  if h : page ≤ min totalPages maxPages then
    match api page with
    | Except.error e => (Except.error e, [page])
    | Except.ok data =>
      match data.results with
      | some rs =>
        let r := fetchLoop api maxPages (page + 1) (data.total_pages.getD 1) (acc ++ rs)
        (r.1, page :: r.2)
      | none =>
        let r := fetchLoop api maxPages (page + 1) totalPages acc
        (r.1, page :: r.2)
  else
    (Except.ok acc, [])
termination_by maxPages + 1 - page
decreasing_by
  all_goals
    have h2 := Nat.min_le_right totalPages maxPages
    omega

/-- `fetch_all_pages(url, max_pages)`: starts with `page = 1`,
`total_pages = 1`, `all_results = []`. -/
def fetchAllPages (api : Nat → Except PyErr PageResponse) (maxPages : Nat) :
    Except PyErr (List Item) :=
  (fetchLoop api maxPages 1 1 []).1

/-- The page numbers for which `fetch_all_pages` issues GET requests, in
order. -/
def requestedPages (api : Nat → Except PyErr PageResponse) (maxPages : Nat) : List Nat :=
  (fetchLoop api maxPages 1 1 []).2

/-! ## Date parsing (`datetime.strptime(s, '%Y-%m-%d').year`)

CPython's `_strptime` matches `%Y` as exactly four digits, `%m` as one or two
digits in `1..12`, `%d` as one or two digits in `1..31`, with literal `-`
separators and no unconsumed characters; the `datetime` constructor then
validates the day against the month length (with leap years).  `parseDate`
reproduces this over `List Char` and returns the (year, month, day). -/

/-- Gregorian leap-year rule used by `datetime`. -/
def isLeapYear (y : Nat) : Bool :=
  y % 4 = 0 && (y % 100 ≠ 0 || y % 400 = 0)

/-- Number of days of month `m` of year `y`. -/
def daysInMonth (y m : Nat) : Nat :=
  if m = 2 then (if isLeapYear y then 29 else 28)
  else if m = 4 ∨ m = 6 ∨ m = 9 ∨ m = 11 then 30
  else 31

/-- Split a character list at `'-'` separators (like `"a-b-c".split('-')`,
which never returns an empty list). -/
def splitDashes : List Char → List (List Char)
  | [] => [[]]
  | c :: rest =>
    if c = '-' then [] :: splitDashes rest
    else
      match splitDashes rest with
      | h :: t => (c :: h) :: t
      | [] => [[c]]

/-- Numeric value of an all-digit character list (`none` if any character is
not a digit; the empty list yields `some 0` and is ruled out by the length
checks of `parseDate`). -/
def digitsVal : List Char → Option Nat
  | cs =>
    if cs.all Char.isDigit then
      some (cs.foldl (fun a c => a * 10 + (c.toNat - 48)) 0)
    else none

/-- `datetime.strptime(s, '%Y-%m-%d')`, as (year, month, day); `none` models
the `ValueError` raised on a non-matching string or invalid date.  The year
must lie in `datetime`'s range: `MINYEAR = 1` rules out `"0000-..."` (the
four-digit `%Y` match already bounds it by `9999 = MAXYEAR`). -/
def parseDate (s : String) : Option (Nat × Nat × Nat) :=
  match splitDashes s.toList with
  | [ys, ms, ds] =>
    match digitsVal ys, digitsVal ms, digitsVal ds with
    | some y, some m, some d =>
      if ys.length = 4 ∧ 1 ≤ y ∧ 1 ≤ ms.length ∧ ms.length ≤ 2 ∧ 1 ≤ m ∧ m ≤ 12
          ∧ 1 ≤ ds.length ∧ ds.length ≤ 2 ∧ 1 ≤ d ∧ d ≤ daysInMonth y m then
        some (y, m, d)
      else none
    | _, _, _ => none
  | _ => none

/-! ## Field extraction (detail enrichment) -/

/-- The fixed image-CDN base path prepended to `logo_path`. -/
def IMAGE_BASE : String := "https://image.tmdb.org/t/p/original"

/-- The fixed genre exclusion set of both loops. -/
def EXCLUDED : List String := ["Animation", "Music", "Documentary", "Kids", "Reality"]

/-- Movie director extraction: `N/A` unless `details.get('credits')` and
`credits.get('crew')` are truthy (present and non-empty); then the first crew
entry with `job == 'Director'`, or `N/A` if none. -/
def extractDirector (d : Details) : String :=
  match d.credits with
  | some c =>
    match c.crew with
    | some crew =>
      if crew.isEmpty then "N/A"
      else
        match crew.find? (fun p => p.job == some "Director") with
        | some person => person.name
        | none => "N/A"
    | none => "N/A"
  | none => "N/A"

/-- Top-3 actors extraction: `N/A` unless `details.get('credits')` and
`credits.get('cast')` are truthy (present and non-empty); then the names of
the first three cast entries, comma-joined. -/
def extractActors (d : Details) : String :=
  match d.credits with
  | some c =>
    match c.cast with
    | some cast =>
      if cast.isEmpty then "N/A"
      else String.intercalate ", " ((cast.take 3).map CastEntry.name)
    | none => "N/A"
  | none => "N/A"

/-- Streaming-provider extraction:
`providers = details.get('watch/providers', {}).get('results', {}).get('US', {})`,
then the mapped `flatrate` list if `providers.get('flatrate')` is truthy,
else `[]`. -/
def extractStreaming (d : Details) : List StreamingEntry :=
  let results := match d.watchProviders with
    | some wp => wp.results
    | none => none
  let region := match results with
    | some rr => rr.us
    | none => none
  match region with
  | some reg =>
    match reg.flatrate with
    | some fl =>
      if fl.isEmpty then []
      else fl.map (fun p => { name := p.provider_name, logo := IMAGE_BASE ++ p.logo_path })
    | none => []
  | none => []

/-- The unjoined genre-name list: `[]` unless `details.get('genres')` is
truthy (present and non-empty). -/
def genreNames (d : Details) : List String :=
  match d.genres with
  | some gs => if gs.isEmpty then [] else gs.map Genre.name
  | none => []

/-- The joined `genres` string (`'N/A'` when the list is empty). -/
def genresString (d : Details) : String :=
  if (genreNames d).isEmpty then "N/A" else String.intercalate ", " (genreNames d)

/-- `e.get(...)` projections of an episode dict into the status block. -/
def extractEpisode (e : Episode) : EpisodeInfo :=
  { season := e.season_number
    episode := e.episode_number
    air_date := e.air_date
    name := e.name }

/-- The `tv_status_info` dict.  (Python checks truthiness of the episode
dicts; an empty episode dict and an all-`None` episode dict produce blocks
that carry no information either way, so `Option.map` is adequate.) -/
def extractTvStatus (d : Details) : TvStatus :=
  { status := d.status.getD "N/A"
    in_production := d.in_production.getD false
    last_episode := d.last_episode_to_air.map extractEpisode
    next_episode := d.next_episode_to_air.map extractEpisode }

/-! ## Per-item record construction -/

/-- Direct dict indexing `obj['key']`: raises `KeyError` when absent. -/
def getKey {α : Type} (o : Option α) : Except PyErr α :=
  match o with
  | some v => Except.ok v
  | none => Except.error PyErr.keyError

/-- `datetime.strptime(movie['release_date'], '%Y-%m-%d').year if
movie.get('release_date') else None` — an empty string is falsy, a present
non-empty string that fails to parse raises `ValueError`. -/
def movieYear (movie : Item) : Except PyErr (Option Nat) :=
  match movie.release_date with
  | some s =>
    if s = "" then Except.ok none
    else
      match parseDate s with
      | some t => Except.ok (some t.1)
      | none => Except.error PyErr.valueError
  | none => Except.ok none

/-- Same derivation from `first_air_date` for TV shows. -/
def tvYear (item : Item) : Except PyErr (Option Nat) :=
  match item.first_air_date with
  | some s =>
    if s = "" then Except.ok none
    else
      match parseDate s with
      | some t => Except.ok (some t.1)
      | none => Except.error PyErr.valueError
  | none => Except.ok none

/-- One iteration of the movie loop: fetch details for `movie['id']`, extract
fields, skip (`none`) when the genre list meets the exclusion set, otherwise
build the output dict (`some record`).  Field reads appear in the source's
evaluation order. -/
def processMovie (dApi : Nat → Except PyErr Details) (movie : Item) :
    Except PyErr (Option MovieRecord) := do
  let id ← getKey movie.id
  let details ← dApi id
  let director := extractDirector details
  let actors := extractActors details
  let streaming := extractStreaming details
  let gl := genreNames details
  let genres := if gl.isEmpty then "N/A" else String.intercalate ", " gl
  if gl.any (fun g => EXCLUDED.contains g) then
    pure none
  else do
    let title ← getKey movie.title
    let year ← movieYear movie
    let va ← getKey movie.vote_average
    let vc ← getKey movie.vote_count
    pure (some
      { id := id
        title := title
        overview := movie.overview.getD ""
        poster_path := movie.poster_path
        release_date := movie.release_date
        year := year
        vote_average := va
        vote_count := vc
        director := director
        actors := actors
        genres := genres
        streaming := streaming })

/-- The movie loop: sequential, appending surviving records in order; an
uncaught exception aborts the whole loop. -/
def processMovies (dApi : Nat → Except PyErr Details) : List Item → Except PyErr (List MovieRecord)
  | [] => Except.ok []
  | m :: ms => do
    match ← processMovie dApi m with
    | some r => do
      let rest ← processMovies dApi ms
      pure (r :: rest)
    | none => processMovies dApi ms

/-- One iteration of the TV loop (`title` comes from `show['name']`, the
status block is built after the genre skip). -/
def processTvShow (dApi : Nat → Except PyErr Details) (item : Item) :
    Except PyErr (Option TvRecord) := do
  let id ← getKey item.id
  let details ← dApi id
  let actors := extractActors details
  let streaming := extractStreaming details
  let gl := genreNames details
  let genres := if gl.isEmpty then "N/A" else String.intercalate ", " gl
  if gl.any (fun g => EXCLUDED.contains g) then
    pure none
  else do
    let tvStatus := extractTvStatus details
    let title ← getKey item.name
    let year ← tvYear item
    let va ← getKey item.vote_average
    let vc ← getKey item.vote_count
    pure (some
      { id := id
        title := title
        overview := item.overview.getD ""
        poster_path := item.poster_path
        first_air_date := item.first_air_date
        year := year
        vote_average := va
        vote_count := vc
        actors := actors
        genres := genres
        tv_status := tvStatus
        streaming := streaming })

/-- The TV loop. -/
def processTvShows (dApi : Nat → Except PyErr Details) : List Item → Except PyErr (List TvRecord)
  | [] => Except.ok []
  | m :: ms => do
    match ← processTvShow dApi m with
    | some r => do
      let rest ← processTvShows dApi ms
      pure (r :: rest)
    | none => processTvShows dApi ms

/-! ## Whole run -/

/-- The whole script after startup: fetch and process movies, then TV shows,
then assemble `output_data`.  Any uncaught exception aborts the run. -/
def run (api : Api) (maxPages : Nat) : Except PyErr OutputDoc := do
  let movies ← fetchAllPages api.moviePage maxPages
  let movies_data ← processMovies api.movieDetail movies
  let tv_shows ← fetchAllPages api.tvPage maxPages
  let tv_data ← processTvShows api.tvDetail tv_shows
  pure
    { movies := movies_data
      tv_shows := tv_data
      metadata :=
        { total_movies := movies_data.length
          total_tv := tv_data.length
          total_items := movies_data.length + tv_data.length } }

/-- Contents of `data.json` after the run: the script reaches the
`json.dump` call only when both loops completed; an uncaught exception
leaves the file untouched (`none`). -/
def writtenOutput (api : Api) (maxPages : Nat) : Option OutputDoc :=
  (run api maxPages).toOption

/-! ## Theorems -/

/-- Each grant happens at least `DELAY_BETWEEN_REQUESTS` after the previous
grant recorded in `last`. -/
theorem rateLimitGrant_ge (last t : ℚ) :
    last + DELAY_BETWEEN_REQUESTS ≤ rateLimitGrant last t := by
  unfold rateLimitGrant
  split
  · exact le_refl _
  · next hlt => linarith [not_lt.mp hlt]

/-- Helper: the chain of grant times has gaps of at least the configured
spacing. -/
theorem grantTimes_chain (ts : List ℚ) :
    ∀ last : ℚ, List.Chain' (fun a b => a + DELAY_BETWEEN_REQUESTS ≤ b) (grantTimes last ts) := by
  induction ts with
  | nil => intro last; simp [grantTimes]
  | cons t ts ih =>
    intro last
    rw [grantTimes]
    rcases ts with _ | ⟨t2, ts2⟩
    · simp [grantTimes]
    · have h := ih (rateLimitGrant last t)
      rw [grantTimes] at h ⊢
      exact List.chain'_cons.mpr ⟨rateLimitGrant_ge _ _, h⟩

/-- C8: for any sequence of acquisitions, consecutive granted acquisitions
are at least `spacing = window_seconds / requests_per_window` apart; each
call blocks until at least that spacing has elapsed since the previous
grant (`rateLimitGrant last t ≥ last + spacing`), and the grant time becomes
the new last-granted timestamp (`grantTimes` threads it). -/
theorem rate_limiter_min_spacing :
    ∀ (last : ℚ) (ts : List ℚ),
      List.Chain' (fun a b => a + DELAY_BETWEEN_REQUESTS ≤ b) (grantTimes last ts)
      ∧ (∀ t, last + DELAY_BETWEEN_REQUESTS ≤ rateLimitGrant last t
          ∧ grantTimes last (t :: ts) = rateLimitGrant last t :: grantTimes (rateLimitGrant last t) ts)
      ∧ DELAY_BETWEEN_REQUESTS = 10 / REQUESTS_PER_10_SEC := by
  intro last ts
  refine ⟨grantTimes_chain ts last, fun t => ⟨rateLimitGrant_ge last t, rfl⟩, rfl⟩

/-- Helper: once `totalPages` holds the constant bound `T` reported by every
response that carries a `results` array, the loop walks consecutively from
`page` to `min T maxPages` and concatenates the pages' results. -/
theorem fetchLoop_constT (api : Nat → Except PyErr PageResponse) (resp : Nat → PageResponse)
    (maxPages T : Nat)
    (hapi : ∀ p, api p = Except.ok (resp p))
    (hT : ∀ p r, (resp p).results = some r → (resp p).total_pages = some T) :
    ∀ page acc, fetchLoop api maxPages page T acc =
      (Except.ok (acc ++ (List.range' page (min T maxPages + 1 - page)).flatMap
          (fun p => ((resp p).results).getD [])),
        List.range' page (min T maxPages + 1 - page)) := by
  suffices H : ∀ n page acc, maxPages + 1 - page = n →
      fetchLoop api maxPages page T acc =
        (Except.ok (acc ++ (List.range' page (min T maxPages + 1 - page)).flatMap
            (fun p => ((resp p).results).getD [])),
          List.range' page (min T maxPages + 1 - page)) by
    intro page acc
    exact H (maxPages + 1 - page) page acc rfl
  intro n
  induction n with
  | zero =>
    intro page acc h0
    have hmr := Nat.min_le_right T maxPages
    have hc : ¬ page ≤ min T maxPages := by omega
    have hz : min T maxPages + 1 - page = 0 := by omega
    rw [fetchLoop, dif_neg hc, hz]
    simp [List.range']
  | succ n ih =>
    intro page acc h
    have hmr := Nat.min_le_right T maxPages
    rw [fetchLoop]
    by_cases hc : page ≤ min T maxPages
    · rw [dif_pos hc, hapi page]
      have hmin : min T maxPages + 1 - page = (min T maxPages - page) + 1 := by omega
      cases hres : (resp page).results with
      | some rs =>
        have htp : (resp page).total_pages = some T := hT page rs hres
        simp only [hres, htp, Option.getD_some]
        rw [ih (page + 1) (acc ++ rs) (by omega)]
        have h2 : min T maxPages + 1 - (page + 1) = min T maxPages - page := by omega
        rw [h2, hmin, List.range'_succ]
        simp [hres, List.append_assoc]
      | none =>
        simp only [hres]
        rw [ih (page + 1) acc (by omega)]
        have h2 : min T maxPages + 1 - (page + 1) = min T maxPages - page := by omega
        rw [h2, hmin, List.range'_succ]
        simp [hres]
    · rw [dif_neg hc]
      have hz : min T maxPages + 1 - page = 0 := by omega
      rw [hz]
      simp [List.range']

/-- Helper: starting from `page = 1`, `total_pages = 1`, a first page that
carries a `results` array hands the loop the discovered bound `T`, and the
whole fetch covers exactly pages `1 .. min T maxPages`. -/
theorem fetchAll_constT (api : Nat → Except PyErr PageResponse) (resp : Nat → PageResponse)
    (maxPages T : Nat)
    (hapi : ∀ p, api p = Except.ok (resp p))
    (hT : ∀ p r, (resp p).results = some r → (resp p).total_pages = some T)
    (hmax : 1 ≤ maxPages) (hT1 : 1 ≤ T)
    (r1 : List Item) (hr1 : (resp 1).results = some r1) :
    fetchAllPages api maxPages =
      Except.ok ((List.range' 1 (min T maxPages)).flatMap (fun p => ((resp p).results).getD []))
    ∧ requestedPages api maxPages = List.range' 1 (min T maxPages) := by
  have hc : 1 ≤ min 1 maxPages := le_min (le_refl 1) hmax
  have htp1 := hT 1 r1 hr1
  have hrec := fetchLoop_constT api resp maxPages T hapi hT 2 ([] ++ r1)
  have hB : 1 ≤ min T maxPages := le_min hT1 hmax
  have h2 : min T maxPages + 1 - 2 = min T maxPages - 1 := by omega
  have h3 : min T maxPages = (min T maxPages - 1) + 1 := by omega
  unfold fetchAllPages requestedPages
  rw [fetchLoop, dif_pos hc, hapi 1]
  simp only [hr1, htp1, Option.getD_some]
  rw [hrec, h2]
  constructor
  · conv_rhs => rw [h3]
    rw [List.range'_succ]
    simp [hr1]
  · conv_rhs => rw [h3]
    rw [List.range'_succ]

/-- C1: when every page response carries a `results` array and reports the
same total-page bound `T`, `fetch_all_pages` with cap `maxPages ≥ 1` issues
GETs exactly for the consecutive pages `1 .. min T maxPages` — no gaps, no
repeats, never beyond the bound — and returns the concatenation of the
pages' `results` arrays in page order. -/
theorem fetch_all_pages_requests_consecutive_bounded
    (api : Nat → Except PyErr PageResponse) (rs : Nat → List Item) (maxPages T : Nat)
    (hapi : ∀ p, api p = Except.ok { results := some (rs p), total_pages := some T })
    (hmax : 1 ≤ maxPages) (hT1 : 1 ≤ T) :
    requestedPages api maxPages = List.range' 1 (min T maxPages)
    ∧ (requestedPages api maxPages).Nodup
    ∧ (∀ p, p ∈ requestedPages api maxPages → 1 ≤ p ∧ p ≤ min T maxPages)
    ∧ fetchAllPages api maxPages = Except.ok ((List.range' 1 (min T maxPages)).flatMap rs) := by
  have hall := fetchAll_constT api (fun p => { results := some (rs p), total_pages := some T })
    maxPages T hapi (fun p r hr => rfl) hmax hT1 (rs 1) rfl
  refine ⟨hall.2, ?_, ?_, ?_⟩
  · rw [hall.2]
    exact List.nodup_range' 1 (min T maxPages)
  · intro p hp
    rw [hall.2] at hp
    have := List.mem_range'_1.mp hp
    omega
  · rw [hall.1]
    rfl

/-- C1 witness: a two-page API with bound `T = 2` and `maxPages = 5`. -/
theorem fetch_all_pages_requests_consecutive_bounded_witness :
    requestedPages (fun _ => Except.ok { results := some [], total_pages := some 2 }) 5 =
      List.range' 1 (min 2 5)
    ∧ (requestedPages (fun _ => Except.ok { results := some [], total_pages := some 2 }) 5).Nodup
    ∧ (∀ p, p ∈ requestedPages (fun _ => Except.ok { results := some [], total_pages := some 2 }) 5 →
        1 ≤ p ∧ p ≤ min 2 5)
    ∧ fetchAllPages (fun _ => Except.ok { results := some [], total_pages := some 2 }) 5 =
        Except.ok ((List.range' 1 (min 2 5)).flatMap (fun _ => [])) :=
  fetch_all_pages_requests_consecutive_bounded
    (fun _ => Except.ok { results := some [], total_pages := some 2 }) (fun _ => []) 5 2
    (fun _ => rfl) (by decide) (by decide)

/-- C2: (a) a response without a `results` key contributes nothing to the
accumulator, yet the loop advances and keeps running to the bound `T`
discovered from the other pages, whatever `total_pages` that malformed
response carries; (b) a response that has `results` but no `total_pages` key
updates the bound to the default `1`, which terminates the loop right after
the current page. -/
theorem fetch_all_pages_missing_keys_tolerance :
    (∀ (api : Nat → Except PyErr PageResponse) (resp : Nat → PageResponse)
        (maxPages T k : Nat) (tpk : Option Nat),
      (∀ p, api p = Except.ok (resp p)) →
      (∀ p, p ≠ k → ∃ r, (resp p).results = some r) →
      (∀ p r, (resp p).results = some r → (resp p).total_pages = some T) →
      resp k = { results := none, total_pages := tpk } →
      2 ≤ k → 1 ≤ T → 1 ≤ maxPages →
      requestedPages api maxPages = List.range' 1 (min T maxPages)
      ∧ fetchAllPages api maxPages =
          Except.ok ((List.range' 1 (min T maxPages)).flatMap (fun p => ((resp p).results).getD []))
      ∧ ((resp k).results).getD [] = [])
    ∧ (∀ (api : Nat → Except PyErr PageResponse) (maxPages page tp : Nat) (acc rs0 : List Item),
      1 ≤ page → page ≤ min tp maxPages →
      api page = Except.ok { results := some rs0, total_pages := none } →
      fetchLoop api maxPages page tp acc = (Except.ok (acc ++ rs0), [page])) := by
  constructor
  · intro api resp maxPages T k tpk hapi hother hT hk hk2 hT1 hmax
    obtain ⟨r1, hr1⟩ := hother 1 (by omega)
    have hall := fetchAll_constT api resp maxPages T hapi hT hmax hT1 r1 hr1
    exact ⟨hall.2, hall.1, by simp [hk]⟩
  · intro api maxPages page tp acc rs0 hpage hle happ
    have hstop : ¬ (page + 1 ≤ min 1 maxPages) := by
      have := Nat.min_le_left 1 maxPages
      omega
    rw [fetchLoop, dif_pos hle, happ]
    simp only [Option.getD_none]
    rw [fetchLoop, dif_neg hstop]

/-- C2 part (a) fixture: every page reports bound `3`, except page `2`,
which lacks `results` (and claims an irrelevant `total_pages = 99`). -/
def apiNoResultsPage2 : Nat → Except PyErr PageResponse := fun p =>
  if p = 2 then Except.ok { results := none, total_pages := some 99 }
  else Except.ok { results := some [], total_pages := some 3 }

/-- The pure responses of `apiNoResultsPage2`. -/
def respNoResultsPage2 : Nat → PageResponse := fun p =>
  if p = 2 then { results := none, total_pages := some 99 }
  else { results := some [], total_pages := some 3 }

/-- C2 witness: pages `1..3` are all fetched although page `2` lacks
`results`; and a page with `results` but no `total_pages` ends the loop. -/
theorem fetch_all_pages_missing_keys_tolerance_witness :
    (requestedPages apiNoResultsPage2 5 = List.range' 1 (min 3 5)
      ∧ fetchAllPages apiNoResultsPage2 5 =
          Except.ok ((List.range' 1 (min 3 5)).flatMap
            (fun p => ((respNoResultsPage2 p).results).getD []))
      ∧ ((respNoResultsPage2 2).results).getD [] = [])
    ∧ fetchLoop (fun _ => Except.ok { results := some [], total_pages := none }) 1 1 1 [] =
        (Except.ok ([] ++ []), [1]) := by
  constructor
  · refine fetch_all_pages_missing_keys_tolerance.1 apiNoResultsPage2 respNoResultsPage2
      5 3 2 (some 99) ?_ ?_ ?_ ?_ (by decide) (by decide) (by decide)
    · intro p
      by_cases h : p = 2 <;> simp [apiNoResultsPage2, respNoResultsPage2, h]
    · intro p hp
      exact ⟨[], by simp [respNoResultsPage2, hp]⟩
    · intro p r hr
      by_cases h : p = 2
      · rw [h] at hr; simp [respNoResultsPage2] at hr
      · simp [respNoResultsPage2, h] at hr ⊢
    · simp [respNoResultsPage2]
  · exact fetch_all_pages_missing_keys_tolerance.2
      (fun _ => Except.ok { results := some [], total_pages := none }) 1 1 1 [] []
      (by decide) (by decide) rfl

/-- Reduction of `Except` bind on a success value. -/
@[simp] theorem except_ok_bind {α β : Type} (a : α) (f : α → Except PyErr β) :
    (Except.ok a >>= f) = f a := rfl

/-- Reduction of `Except` bind on an error value. -/
@[simp] theorem except_error_bind {α β : Type} (e : PyErr) (f : α → Except PyErr β) :
    ((Except.error e : Except PyErr α) >>= f) = Except.error e := rfl

/-- Helper: an item the movie loop skips can be removed from the input list
without changing the loop's outcome at all. -/
theorem processMovies_skip (dApi : Nat → Except PyErr Details) (m : Item)
    (hm : processMovie dApi m = Except.ok none) :
    ∀ l1 l2, processMovies dApi (l1 ++ m :: l2) = processMovies dApi (l1 ++ l2) := by
  intro l1
  induction l1 with
  | nil =>
    intro l2
    simp [processMovies, hm]
  | cons a l1 ih =>
    intro l2
    cases hpa : processMovie dApi a with
    | error e => simp [processMovies, hpa]
    | ok o =>
      cases o with
      | none => simp [processMovies, hpa, ih]
      | some r => simp [processMovies, hpa, ih]

/-- Helper: an item the TV loop skips can be removed from the input list
without changing the loop's outcome at all. -/
theorem processTvShows_skip (dApi : Nat → Except PyErr Details) (m : Item)
    (hm : processTvShow dApi m = Except.ok none) :
    ∀ l1 l2, processTvShows dApi (l1 ++ m :: l2) = processTvShows dApi (l1 ++ l2) := by
  intro l1
  induction l1 with
  | nil =>
    intro l2
    simp [processTvShows, hm]
  | cons a l1 ih =>
    intro l2
    cases hpa : processTvShow dApi a with
    | error e => simp [processTvShows, hpa]
    | ok o =>
      cases o with
      | none => simp [processTvShows, hpa, ih]
      | some r => simp [processTvShows, hpa, ih]

/-- C3: an enriched item whose unjoined genre-name list meets the exclusion
set `{Animation, Music, Documentary, Kids, Reality}` is skipped by both
loops: the item yields no record (`Except.ok none`), and removing it from
the discovered list leaves each loop's entire outcome — hence both output
lists and every count derived from their lengths — unchanged, regardless of
the item's rating and vote values. -/
theorem genre_filter_excludes_item :
    ∀ (dApi : Nat → Except PyErr Details) (m : Item) (i : Nat) (d : Details),
      m.id = some i → dApi i = Except.ok d →
      (∃ g, g ∈ genreNames d ∧ g ∈ EXCLUDED) →
      (processMovie dApi m = Except.ok none
        ∧ ∀ l1 l2, processMovies dApi (l1 ++ m :: l2) = processMovies dApi (l1 ++ l2))
      ∧ (processTvShow dApi m = Except.ok none
        ∧ ∀ l1 l2, processTvShows dApi (l1 ++ m :: l2) = processTvShows dApi (l1 ++ l2)) := by
  intro dApi m i d hid hdApi hex
  have hany : (genreNames d).any (fun g => EXCLUDED.contains g) = true := by
    obtain ⟨g, hg, hgE⟩ := hex
    refine List.any_eq_true.mpr ⟨g, hg, ?_⟩
    exact List.elem_iff.mpr hgE
  have hmov : processMovie dApi m = Except.ok none := by
    simp [processMovie, getKey, hid, hdApi, hany, hex]
    rfl
  have htv : processTvShow dApi m = Except.ok none := by
    simp [processTvShow, getKey, hid, hdApi, hany, hex]
    rfl
  exact ⟨⟨hmov, processMovies_skip dApi m hmov⟩, ⟨htv, processTvShows_skip dApi m htv⟩⟩

/-- A detail payload carrying the excluded genre `Documentary`. -/
def docDetails : Details :=
  { credits := none
    watchProviders := none
    genres := some [{ name := "Documentary" }]
    status := none
    in_production := none
    last_episode_to_air := none
    next_episode_to_air := none }

/-- Detail oracle answering `docDetails` for every id. -/
def dApiDoc : Nat → Except PyErr Details := fun _ => Except.ok docDetails

/-- A well-formed discovery item with id 1. -/
def itemDoc : Item :=
  { id := some 1
    title := some "Doc"
    name := some "Doc"
    overview := none
    poster_path := none
    release_date := none
    first_air_date := none
    vote_average := some 7
    vote_count := some 5 }

/-- C3 witness: a documentary item is skipped by both loops. -/
theorem genre_filter_excludes_item_witness :
    (processMovie dApiDoc itemDoc = Except.ok none
      ∧ ∀ l1 l2, processMovies dApiDoc (l1 ++ itemDoc :: l2) = processMovies dApiDoc (l1 ++ l2))
    ∧ (processTvShow dApiDoc itemDoc = Except.ok none
      ∧ ∀ l1 l2, processTvShows dApiDoc (l1 ++ itemDoc :: l2) = processTvShows dApiDoc (l1 ++ l2)) :=
  genre_filter_excludes_item dApiDoc itemDoc 1 docDetails rfl rfl
    ⟨"Documentary", by decide, by decide⟩

/-- C4: `data.json` is written only when the whole run succeeded — a written
document certifies that both discovery fetches and both processing loops
completed in full — and any uncaught request error leaves the file
untouched; in particular a failing first discovery request aborts the run
with that error, whatever every other response would have been. -/
theorem http_error_aborts_run_without_write :
    ∀ (api : Api) (maxPages : Nat),
      (∀ doc, writtenOutput api maxPages = some doc →
        run api maxPages = Except.ok doc
        ∧ ∃ ms ts, fetchAllPages api.moviePage maxPages = Except.ok ms
            ∧ processMovies api.movieDetail ms = Except.ok doc.movies
            ∧ fetchAllPages api.tvPage maxPages = Except.ok ts
            ∧ processTvShows api.tvDetail ts = Except.ok doc.tv_shows)
      ∧ (∀ e, run api maxPages = Except.error e → writtenOutput api maxPages = none)
      ∧ (∀ e, 1 ≤ maxPages → api.moviePage 1 = Except.error e →
          run api maxPages = Except.error e ∧ writtenOutput api maxPages = none) := by
  intro api maxPages
  refine ⟨?_, ?_, ?_⟩
  · intro doc hw
    have hrun : run api maxPages = Except.ok doc := by
      unfold writtenOutput at hw
      cases hr : run api maxPages with
      | ok d =>
        rw [hr] at hw
        simp [Except.toOption] at hw
        rw [hw]
      | error e =>
        rw [hr] at hw
        simp [Except.toOption] at hw
    refine ⟨hrun, ?_⟩
    unfold run at hrun
    cases h1 : fetchAllPages api.moviePage maxPages with
    | error e => simp [h1] at hrun
    | ok ms =>
      cases h2 : processMovies api.movieDetail ms with
      | error e => simp [h1, h2] at hrun
      | ok md =>
        cases h3 : fetchAllPages api.tvPage maxPages with
        | error e => simp [h1, h2, h3] at hrun
        | ok ts =>
          cases h4 : processTvShows api.tvDetail ts with
          | error e => simp [h1, h2, h3, h4] at hrun
          | ok td =>
            simp only [h1, h2, h3, h4, except_ok_bind] at hrun
            injection hrun with hd
            subst hd
            exact ⟨ms, ts, rfl, h2, rfl, h4⟩
  · intro e he
    unfold writtenOutput
    rw [he]
    rfl
  · intro e hmax herr
    have hfa : fetchAllPages api.moviePage maxPages = Except.error e := by
      unfold fetchAllPages
      rw [fetchLoop, dif_pos (le_min (le_refl 1) hmax), herr]
    have hrun : run api maxPages = Except.error e := by
      unfold run
      rw [hfa]
      rfl
    refine ⟨hrun, ?_⟩
    unfold writtenOutput
    rw [hrun]
    rfl

/-- An API whose discovery endpoints answer a non-2xx status for every
request. -/
def apiHttpFail : Api :=
  { moviePage := fun _ => Except.error PyErr.httpError
    movieDetail := fun _ => Except.ok docDetails
    tvPage := fun _ => Except.error PyErr.httpError
    tvDetail := fun _ => Except.ok docDetails }

/-- C4 witness: an HTTP failure on the first discovery request aborts the
run and nothing is written. -/
theorem http_error_aborts_run_without_write_witness :
    run apiHttpFail 1 = Except.error PyErr.httpError ∧ writtenOutput apiHttpFail 1 = none :=
  (http_error_aborts_run_without_write apiHttpFail 1).2.2 PyErr.httpError (by decide) rfl

/-- C5: every generated output document satisfies
`metadata.total_items = len(movies) + len(tv_shows)`, and the per-category
counts equal the lengths of the (post-filter) output lists themselves. -/
theorem metadata_total_items_invariant :
    ∀ (api : Api) (maxPages : Nat) (doc : OutputDoc),
      run api maxPages = Except.ok doc →
      doc.metadata.total_items = doc.movies.length + doc.tv_shows.length
      ∧ doc.metadata.total_movies = doc.movies.length
      ∧ doc.metadata.total_tv = doc.tv_shows.length := by
  intro api maxPages doc hrun
  unfold run at hrun
  cases h1 : fetchAllPages api.moviePage maxPages with
  | error e => simp [h1] at hrun
  | ok ms =>
    cases h2 : processMovies api.movieDetail ms with
    | error e => simp [h1, h2] at hrun
    | ok md =>
      cases h3 : fetchAllPages api.tvPage maxPages with
      | error e => simp [h1, h2, h3] at hrun
      | ok ts =>
        cases h4 : processTvShows api.tvDetail ts with
        | error e => simp [h1, h2, h3, h4] at hrun
        | ok td =>
          simp only [h1, h2, h3, h4, except_ok_bind] at hrun
          injection hrun with hd
          subst hd
          exact ⟨rfl, rfl, rfl⟩

/-- An API whose discovery pages are well-formed but empty. -/
def apiEmptyOk : Api :=
  { moviePage := fun _ => Except.ok { results := some [], total_pages := some 1 }
    movieDetail := fun _ => Except.ok docDetails
    tvPage := fun _ => Except.ok { results := some [], total_pages := some 1 }
    tvDetail := fun _ => Except.ok docDetails }

/-- The output document of a run over `apiEmptyOk`. -/
def docEmpty : OutputDoc :=
  { movies := []
    tv_shows := []
    metadata := { total_movies := 0, total_tv := 0, total_items := 0 } }

/-- Helper: the run over the empty API succeeds with the empty document. -/
theorem run_apiEmptyOk : run apiEmptyOk 1 = Except.ok docEmpty := by
  have hm : fetchAllPages apiEmptyOk.moviePage 1 = Except.ok [] := by
    have h := fetchAll_constT apiEmptyOk.moviePage
      (fun _ => { results := some [], total_pages := some 1 }) 1 1
      (fun p => rfl) (fun p r hr => rfl) (by decide) (by decide) [] rfl
    simpa using h.1
  have ht : fetchAllPages apiEmptyOk.tvPage 1 = Except.ok [] := by
    have h := fetchAll_constT apiEmptyOk.tvPage
      (fun _ => { results := some [], total_pages := some 1 }) 1 1
      (fun p => rfl) (fun p r hr => rfl) (by decide) (by decide) [] rfl
    simpa using h.1
  unfold run
  rw [hm, except_ok_bind]
  show (processMovies apiEmptyOk.movieDetail [] >>= _) = _
  rw [show processMovies apiEmptyOk.movieDetail [] = Except.ok [] from rfl, except_ok_bind]
  rw [ht, except_ok_bind]
  rfl

/-- C5 witness: the invariant instantiated on a concrete successful run. -/
theorem metadata_total_items_invariant_witness :
    docEmpty.metadata.total_items = docEmpty.movies.length + docEmpty.tv_shows.length
    ∧ docEmpty.metadata.total_movies = docEmpty.movies.length
    ∧ docEmpty.metadata.total_tv = docEmpty.tv_shows.length :=
  metadata_total_items_invariant apiEmptyOk 1 docEmpty run_apiEmptyOk

/-- C6: the movie `director` field is the name of the first crew entry whose
`job` equals exactly `"Director"` (`N/A` if credits are absent, crew absent,
or no such entry), and `actors` is the comma-join of the names of the first
three cast entries (`N/A` if credits or cast absent, or cast empty); a
payload with no credits yields both sentinels. -/
theorem director_actors_extraction_spec :
    ∀ d : Details,
      (d.credits = none → extractDirector d = "N/A" ∧ extractActors d = "N/A")
      ∧ (∀ c, d.credits = some c →
          ((c.crew = none → extractDirector d = "N/A")
            ∧ ∀ crew, c.crew = some crew →
                ((∀ p, crew.find? (fun q => q.job == some "Director") = some p →
                    extractDirector d = p.name)
                  ∧ (crew.find? (fun q => q.job == some "Director") = none →
                    extractDirector d = "N/A")))
          ∧ ((c.cast = none → extractActors d = "N/A")
            ∧ ∀ cast, c.cast = some cast →
                ((cast = [] → extractActors d = "N/A")
                  ∧ (cast ≠ [] →
                    extractActors d =
                      String.intercalate ", " ((cast.take 3).map CastEntry.name))))) := by
  intro d
  refine ⟨?_, ?_⟩
  · intro h
    exact ⟨by simp [extractDirector, h], by simp [extractActors, h]⟩
  · intro c hc
    refine ⟨⟨?_, ?_⟩, ?_, ?_⟩
    · intro h
      simp [extractDirector, hc, h]
    · intro crew hcrew
      constructor
      · intro p hfind
        have hne : crew.isEmpty = false := by
          cases crew with
          | nil => simp [List.find?] at hfind
          | cons a l => rfl
        simp [extractDirector, hc, hcrew, hne, hfind]
      · intro hfind
        by_cases hemp : crew.isEmpty
        · simp [extractDirector, hc, hcrew, hemp]
        · simp [extractDirector, hc, hcrew, hemp, hfind]
    · intro h
      simp [extractActors, hc, h]
    · intro cast hcast
      constructor
      · intro h
        subst h
        simp [extractActors, hc, hcast]
      · intro h
        have hne : cast.isEmpty = false := by
          cases cast with
          | nil => simp at h
          | cons a l => rfl
        simp [extractActors, hc, hcast, hne]

/-- A detail payload with a full credits block: the second crew entry is the
first with job `Director`, and the cast has four entries. -/
def credDetails : Details :=
  { credits := some
      { crew := some
          [{ job := some "Writer", name := "W" }
           , { job := some "Director", name := "Jane" }
           , { job := some "Director", name := "Zed" }]
        cast := some [{ name := "A" }, { name := "B" }, { name := "C" }, { name := "D" }] }
    watchProviders := none
    genres := none
    status := none
    in_production := none
    last_episode_to_air := none
    next_episode_to_air := none }

/-- C6 witness: first-`Director` crew name, top-3 cast join, and the
no-credits sentinels, on concrete payloads. -/
theorem director_actors_extraction_spec_witness :
    extractDirector credDetails = ({ job := some "Director", name := "Jane" } : CrewEntry).name
    ∧ extractActors credDetails = String.intercalate ", "
        ((([{ name := "A" }, { name := "B" }, { name := "C" }, { name := "D" }]
          : List CastEntry).take 3).map CastEntry.name)
    ∧ extractDirector docDetails = "N/A"
    ∧ extractActors docDetails = "N/A" := by
  have h := director_actors_extraction_spec credDetails
  have hno := director_actors_extraction_spec docDetails
  refine ⟨?_, ?_, ?_, ?_⟩
  · exact ((h.2 _ rfl).1.2 _ rfl).1 _ (by decide)
  · exact ((h.2 _ rfl).2.2 _ rfl).2 (by decide)
  · exact (hno.1 rfl).1
  · exact (hno.1 rfl).2

/-- C7: for both categories, the streaming list is the fixed region's
`flatrate` list mapped to `{name, logo}` entries whose logo URL concatenates
the fixed image-CDN base with the entry's `logo_path`; whenever any link of
the `watch/providers → results → US → flatrate` chain is absent, the list is
empty. -/
theorem streaming_extraction_spec :
    ∀ d : Details,
      (∀ wp rr reg fl, d.watchProviders = some wp → wp.results = some rr →
        rr.us = some reg → reg.flatrate = some fl →
        extractStreaming d = fl.map (fun p =>
          { name := p.provider_name
            logo := IMAGE_BASE ++ p.logo_path }))
      ∧ (d.watchProviders = none → extractStreaming d = [])
      ∧ (∀ wp, d.watchProviders = some wp → wp.results = none → extractStreaming d = [])
      ∧ (∀ wp rr, d.watchProviders = some wp → wp.results = some rr → rr.us = none →
          extractStreaming d = [])
      ∧ (∀ wp rr reg, d.watchProviders = some wp → wp.results = some rr → rr.us = some reg →
          reg.flatrate = none → extractStreaming d = []) := by
  intro d
  refine ⟨?_, ?_, ?_, ?_, ?_⟩
  · intro wp rr reg fl h1 h2 h3 h4
    cases fl with
    | nil => simp [extractStreaming, h1, h2, h3, h4]
    | cons a l => simp [extractStreaming, h1, h2, h3, h4]
  · intro h
    simp [extractStreaming, h]
  · intro wp h1 h2
    simp [extractStreaming, h1, h2]
  · intro wp rr h1 h2 h3
    simp [extractStreaming, h1, h2, h3]
  · intro wp rr reg h1 h2 h3 h4
    simp [extractStreaming, h1, h2, h3, h4]

/-- A detail payload with a one-provider US `flatrate` list. -/
def flatrateDetails : Details :=
  { credits := none
    watchProviders := some
      { results := some
          { us := some { flatrate := some [{ provider_name := "Netflix", logo_path := "/n.png" }] } } }
    genres := none
    status := none
    in_production := none
    last_episode_to_air := none
    next_episode_to_air := none }

/-- C7 witness: the mapped provider entry on a concrete payload, and the
empty list when the whole chain is absent. -/
theorem streaming_extraction_spec_witness :
    extractStreaming flatrateDetails =
      ([{ provider_name := "Netflix", logo_path := "/n.png" }] : List Provider).map (fun p =>
        { name := p.provider_name
          logo := IMAGE_BASE ++ p.logo_path })
    ∧ extractStreaming docDetails = [] := by
  have h := streaming_extraction_spec flatrateDetails
  have hno := streaming_extraction_spec docDetails
  exact ⟨h.1 _ _ _ _ rfl rfl rfl rfl, hno.2.1 rfl⟩

/-- C9: whenever the release/first-air date string parses as a calendar date
`(y, m, d)` under the `%Y-%m-%d` format, the record's `year` is exactly the
4-digit year `y`; a record with no date field gets `year = none`; and the
concrete date `"2024-03-15"` parses to year `2024`, while `"0000-01-01"`
(a year below `datetime.MINYEAR`) is rejected like any other unparsable
string. -/
theorem year_derivation_spec :
    (∀ (it : Item) (s : String) (y m dd : Nat),
      it.release_date = some s → parseDate s = some (y, m, dd) →
      movieYear it = Except.ok (some y))
    ∧ (∀ it : Item, it.release_date = none → movieYear it = Except.ok none)
    ∧ (∀ (it : Item) (s : String) (y m dd : Nat),
      it.first_air_date = some s → parseDate s = some (y, m, dd) →
      tvYear it = Except.ok (some y))
    ∧ (∀ it : Item, it.first_air_date = none → tvYear it = Except.ok none)
    ∧ parseDate "2024-03-15" = some (2024, 3, 15)
    ∧ parseDate "0000-01-01" = none := by
  refine ⟨?_, ?_, ?_, ?_, by decide, by decide⟩
  · intro it s y m dd hrd hp
    have hne : ¬ s = "" := by
      intro h
      subst h
      rw [show parseDate "" = none from by decide] at hp
      cases hp
    simp only [movieYear, hrd]
    rw [if_neg hne, hp]
  · intro it h
    simp only [movieYear, h]
  · intro it s y m dd hrd hp
    have hne : ¬ s = "" := by
      intro h
      subst h
      rw [show parseDate "" = none from by decide] at hp
      cases hp
    simp only [tvYear, hrd]
    rw [if_neg hne, hp]
  · intro it h
    simp only [tvYear, h]

/-- A discovery item dated `2024-03-15` in both date fields. -/
def datedItem : Item :=
  { id := some 1
    title := some "T"
    name := some "T"
    overview := none
    poster_path := none
    release_date := some "2024-03-15"
    first_air_date := some "2024-03-15"
    vote_average := some 7
    vote_count := some 5 }

/-- C9 witness: `"2024-03-15"` yields year 2024 for both categories, and a
date-less item yields `year = none`. -/
theorem year_derivation_spec_witness :
    movieYear datedItem = Except.ok (some 2024)
    ∧ tvYear datedItem = Except.ok (some 2024)
    ∧ movieYear itemDoc = Except.ok none
    ∧ tvYear itemDoc = Except.ok none :=
  ⟨year_derivation_spec.1 datedItem "2024-03-15" 2024 3 15 rfl (by decide),
    year_derivation_spec.2.2.1 datedItem "2024-03-15" 2024 3 15 rfl (by decide),
    year_derivation_spec.2.1 itemDoc rfl,
    year_derivation_spec.2.2.2.1 itemDoc rfl⟩

/-- An all-absent detail payload (no credits, providers, or genres). -/
def noneDetails : Details :=
  { credits := none
    watchProviders := none
    genres := none
    status := none
    in_production := none
    last_episode_to_air := none
    next_episode_to_air := none }

/-- Detail oracle answering `noneDetails` for every id. -/
def dApiNone : Nat → Except PyErr Details := fun _ => Except.ok noneDetails

/-- C10: both record builders index `id`, `title` (movies) / `name` (TV),
`vote_average` and `vote_count` directly, so the absence of any of these
raises an uncaught `KeyError`; a present but unparsable non-empty date
string (including a `0000-...` year below `datetime.MINYEAR`, rejected by
`parseDate`) raises `ValueError`; any such error propagates out of the loop
and aborts the run; whereas `overview` defaults to `""`, `poster_path` and
the date pass through as optional values, and a missing date yields
`year = none` (via `movieYear`/`tvYear`). -/
theorem record_builder_strict_and_defaulted_fields :
    ∀ (dApi : Nat → Except PyErr Details) (it : Item) (i : Nat) (d : Details),
      (it.id = none → processMovie dApi it = Except.error PyErr.keyError
        ∧ processTvShow dApi it = Except.error PyErr.keyError)
      ∧ (it.id = some i → dApi i = Except.ok d →
          ¬ (∃ g, g ∈ genreNames d ∧ g ∈ EXCLUDED) →
          ((it.title = none → processMovie dApi it = Except.error PyErr.keyError)
            ∧ (it.name = none → processTvShow dApi it = Except.error PyErr.keyError)
            ∧ (∀ s, it.release_date = some s → ¬ s = "" → parseDate s = none →
                ∀ t, it.title = some t → processMovie dApi it = Except.error PyErr.valueError)
            ∧ (∀ s, it.first_air_date = some s → ¬ s = "" → parseDate s = none →
                ∀ t, it.name = some t → processTvShow dApi it = Except.error PyErr.valueError)
            ∧ (∀ t yr, it.title = some t → movieYear it = Except.ok yr →
                it.vote_average = none → processMovie dApi it = Except.error PyErr.keyError)
            ∧ (∀ t yr, it.name = some t → tvYear it = Except.ok yr →
                it.vote_average = none → processTvShow dApi it = Except.error PyErr.keyError)
            ∧ (∀ t yr va, it.title = some t → movieYear it = Except.ok yr →
                it.vote_average = some va → it.vote_count = none →
                processMovie dApi it = Except.error PyErr.keyError)
            ∧ (∀ t yr va, it.name = some t → tvYear it = Except.ok yr →
                it.vote_average = some va → it.vote_count = none →
                processTvShow dApi it = Except.error PyErr.keyError)
            ∧ (∀ t yr va vc, it.title = some t → movieYear it = Except.ok yr →
                it.vote_average = some va → it.vote_count = some vc →
                processMovie dApi it = Except.ok (some
                  { id := i
                    title := t
                    overview := it.overview.getD ""
                    poster_path := it.poster_path
                    release_date := it.release_date
                    year := yr
                    vote_average := va
                    vote_count := vc
                    director := extractDirector d
                    actors := extractActors d
                    genres := genresString d
                    streaming := extractStreaming d }))
            ∧ (∀ t yr va vc, it.name = some t → tvYear it = Except.ok yr →
                it.vote_average = some va → it.vote_count = some vc →
                processTvShow dApi it = Except.ok (some
                  { id := i
                    title := t
                    overview := it.overview.getD ""
                    poster_path := it.poster_path
                    first_air_date := it.first_air_date
                    year := yr
                    vote_average := va
                    vote_count := vc
                    actors := extractActors d
                    genres := genresString d
                    tv_status := extractTvStatus d
                    streaming := extractStreaming d }))))
      ∧ (∀ e ms, processMovie dApi it = Except.error e →
          processMovies dApi (it :: ms) = Except.error e)
      ∧ (∀ e ms, processTvShow dApi it = Except.error e →
          processTvShows dApi (it :: ms) = Except.error e) := by
  intro dApi it i d
  refine ⟨?_, ?_, ?_, ?_⟩
  · intro h
    exact ⟨by simp [processMovie, getKey, h], by simp [processTvShow, getKey, h]⟩
  · intro hid hd hng
    refine ⟨?_, ?_, ?_, ?_, ?_, ?_, ?_, ?_, ?_, ?_⟩
    · intro h
      simp [processMovie, getKey, hid, hd, hng, h]
    · intro h
      simp [processTvShow, getKey, hid, hd, hng, h]
    · intro s hrd hne hp t ht
      have hy : movieYear it = Except.error PyErr.valueError := by
        simp only [movieYear, hrd]
        rw [if_neg hne, hp]
      simp [processMovie, getKey, hid, hd, hng, ht, hy]
    · intro s hrd hne hp t ht
      have hy : tvYear it = Except.error PyErr.valueError := by
        simp only [tvYear, hrd]
        rw [if_neg hne, hp]
      simp [processTvShow, getKey, hid, hd, hng, ht, hy]
    · intro t yr ht hy hva
      simp [processMovie, getKey, hid, hd, hng, ht, hy, hva]
    · intro t yr ht hy hva
      simp [processTvShow, getKey, hid, hd, hng, ht, hy, hva]
    · intro t yr va ht hy hva hvc
      simp [processMovie, getKey, hid, hd, hng, ht, hy, hva, hvc]
    · intro t yr va ht hy hva hvc
      simp [processTvShow, getKey, hid, hd, hng, ht, hy, hva, hvc]
    · intro t yr va vc ht hy hva hvc
      simp [processMovie, getKey, hid, hd, hng, ht, hy, hva, hvc, genresString]
    · intro t yr va vc ht hy hva hvc
      simp [processTvShow, getKey, hid, hd, hng, ht, hy, hva, hvc, genresString]
  · intro e ms h
    simp [processMovies, h]
  · intro e ms h
    simp [processTvShows, h]

/-- A discovery item with no `id` key. -/
def itemNoId : Item :=
  { id := none
    title := some "T"
    name := some "T"
    overview := none
    poster_path := none
    release_date := none
    first_air_date := none
    vote_average := some 7
    vote_count := some 5 }

/-- A discovery item whose `release_date` and `first_air_date` do not parse
as `%Y-%m-%d`. -/
def itemBadDate : Item :=
  { id := some 1
    title := some "T"
    name := some "T"
    overview := none
    poster_path := none
    release_date := some "garbage"
    first_air_date := some "garbage"
    vote_average := some 7
    vote_count := some 5 }

/-- A well-formed item with the tolerated keys (`overview`, `poster_path`,
dates) all absent. -/
def itemDefaulted : Item :=
  { id := some 1
    title := some "T"
    name := some "T"
    overview := none
    poster_path := none
    release_date := none
    first_air_date := none
    vote_average := some 7
    vote_count := some 5 }

/-- C10 witness: a missing `id` raises `KeyError` in both builders and
aborts both loops, an unparsable date raises `ValueError` in both builders,
and a record with absent tolerated keys succeeds in both builders with the
defaults. -/
theorem record_builder_strict_and_defaulted_fields_witness :
    (processMovie dApiNone itemNoId = Except.error PyErr.keyError
      ∧ processTvShow dApiNone itemNoId = Except.error PyErr.keyError)
    ∧ processMovies dApiNone (itemNoId :: []) = Except.error PyErr.keyError
    ∧ processTvShows dApiNone (itemNoId :: []) = Except.error PyErr.keyError
    ∧ processMovie dApiNone itemBadDate = Except.error PyErr.valueError
    ∧ processTvShow dApiNone itemBadDate = Except.error PyErr.valueError
    ∧ processMovie dApiNone itemDefaulted = Except.ok (some
        { id := 1
          title := "T"
          overview := itemDefaulted.overview.getD ""
          poster_path := itemDefaulted.poster_path
          release_date := itemDefaulted.release_date
          year := none
          vote_average := 7
          vote_count := 5
          director := extractDirector noneDetails
          actors := extractActors noneDetails
          genres := genresString noneDetails
          streaming := extractStreaming noneDetails })
    ∧ processTvShow dApiNone itemDefaulted = Except.ok (some
        { id := 1
          title := "T"
          overview := itemDefaulted.overview.getD ""
          poster_path := itemDefaulted.poster_path
          first_air_date := itemDefaulted.first_air_date
          year := none
          vote_average := 7
          vote_count := 5
          actors := extractActors noneDetails
          genres := genresString noneDetails
          tv_status := extractTvStatus noneDetails
          streaming := extractStreaming noneDetails }) := by
  have h1 := record_builder_strict_and_defaulted_fields dApiNone itemNoId 0 noneDetails
  have h2 := record_builder_strict_and_defaulted_fields dApiNone itemBadDate 1 noneDetails
  have h3 := record_builder_strict_and_defaulted_fields dApiNone itemDefaulted 1 noneDetails
  refine ⟨h1.1 rfl, ?_, ?_, ?_, ?_, ?_, ?_⟩
  · exact h1.2.2.1 PyErr.keyError [] (h1.1 rfl).1
  · exact h1.2.2.2 PyErr.keyError [] (h1.1 rfl).2
  · exact (h2.2.1 rfl rfl (by decide)).2.2.1 "garbage" rfl (by decide) (by decide) "T" rfl
  · exact (h2.2.1 rfl rfl (by decide)).2.2.2.1 "garbage" rfl (by decide) (by decide) "T" rfl
  · exact (h3.2.1 rfl rfl (by decide)).2.2.2.2.2.2.2.2.1 "T" none 7 5 rfl rfl rfl rfl
  · exact (h3.2.1 rfl rfl (by decide)).2.2.2.2.2.2.2.2.2 "T" none 7 5 rfl rfl rfl rfl
